import Mathlib

/-!
Shallow embedding of the fleet-management application `src/app.py`.

Modelling conventions, fixed once for the whole development:

* Database rows become Lean structures; the whole SQLite database becomes the
  record `FleetState` of row lists.  SQLAlchemy `db.session.get`/`filter_by`
  become `List.find?`/`List.filter` over those lists; `db.session.delete` of a
  row fetched by primary key becomes removal of the rows carrying that id
  (primary keys are unique in the database, so exactly one row is removed).
* Calendar dates are day ordinals (`Nat`); only their linear order matters to
  the code under study.
* The `mes_ano` / `mes_referencia` labels are stored in the database as
  `"YYYY-MM"` strings and compared lexicographically by SQLite.  On that fixed
  format lexicographic string order coincides with the numeric order of
  `year*100 + month`, so the label is embedded as that `Nat` key.
* SQL `func.lower` comparisons are embedded through `strLower`, a
  character-level lowercase map (ASCII, like `Char.toLower`).
* A request handler returns a `RouteResult`: `.ok` carries the committed new
  state, `.rejected` is a flash-message-and-redirect path that commits nothing
  (the handlers under study flash and redirect before any mutation), and
  `.crash` is an unhandled Python exception (e.g. an attribute access on
  `None`).
* Pandas cell parsing in the spreadsheet import (`pd.to_datetime`, currency
  cleanup, month-name splitting) is modelled as already applied: an imported
  row (`LinhaPlanilha`) carries the parsed optional field values, `none`
  standing for a missing (`NaN`) cell.  The duplicate check inside the import
  loop sees rows added earlier in the same batch, as the default autoflush
  behaviour of SQLAlchemy guarantees.
-/

/-- Model `Empresa` (company), `src/app.py` lines 59-61. -/
structure Empresa where
  id : Nat
  nome : String
deriving DecidableEq

/-- Model `Usuario` (driver), `src/app.py` lines 64-69. -/
structure Usuario where
  id : Nat
  nome : String
  cargo : String
  setor : String
deriving DecidableEq

/-- Model `Veiculo`, `src/app.py` lines 72-81. -/
structure Veiculo where
  id : Nat
  marca_modelo : String
  placa : String
  cor : String
  franquia_km : Int
  empresa_id : Nat
  data_locacao : Nat
  disponivel : Bool
deriving DecidableEq

/-- Model `Utilizacao`, `src/app.py` lines 84-92 (columns only). -/
structure Utilizacao where
  id : Nat
  veiculo_id : Nat
  usuario_id : Nat
  empresa_id : Nat
  data_entrega : Nat
  km_entrega : Int
  data_devolucao : Option Nat
  km_devolucao : Option Int
deriving DecidableEq

/-- Model `ControleKm` (monthly odometer checkpoint), `src/app.py`
lines 110-115; `mes_ano` is the numeric key of the `"YYYY-MM"` label. -/
structure ControleKm where
  id : Nat
  utilizacao_id : Nat
  mes_ano : Nat
  km_inicial_mes : Int
  km_final_mes : Int
deriving DecidableEq

/-- Model `Multa` (fine), `src/app.py` lines 127-148. -/
structure Multa where
  id : Nat
  usuario_id : Option Nat
  veiculo_id : Option Nat
  centro_custo : Option String
  unidade : Option String
  modalidade : Option String
  empresa_id : Option Nat
  placa : String
  mes_referencia : Option Nat
  infracao : Option String
  data_infracao : Option Nat
  hora_infracao : Option String
  valor_termo_desc : Option Float
  desconto_realizado : Option String
  enviado_email_rh : Option String
  observacao : Option String

/-- Model `AppUser` (login identity), `src/app.py` lines 164-178
(`password_hash` and `created_at` omitted: no claim touches them). -/
structure AppUser where
  id : Nat
  username : String
  is_admin : Bool
  can_edit : Bool
  can_delete : Bool
  can_manage_users : Bool
  active : Bool
deriving DecidableEq

/-- The whole relational database: one list of rows per table. -/
structure FleetState where
  empresas : List Empresa
  usuarios : List Usuario
  veiculos : List Veiculo
  utilizacoes : List Utilizacao
  controles : List ControleKm
  multas : List Multa
  app_users : List AppUser

/-- Outcome of one request handler: committed new state, flash-and-redirect
rejection (no mutation), or an unhandled Python exception. -/
inductive RouteResult (σ : Type) : Type where
  | ok (s : σ)
  | rejected (msg : String)
  | crash

def isOk {σ : Type} : RouteResult σ → Bool
  | .ok _ => true
  | _ => false

def isRejected {σ : Type} : RouteResult σ → Bool
  | .rejected _ => true
  | _ => false

/-- The state a handler committed, or `d` when it committed nothing. -/
def okState {σ : Type} (r : RouteResult σ) (d : σ) : σ :=
  match r with
  | .ok s => s
  | _ => d

-- -------------------------------------------------
-- lookups and single-table updates
-- -------------------------------------------------

/-- `db.session.get(Utilizacao, id)`. -/
def getUtilizacao (s : FleetState) (id : Nat) : Option Utilizacao :=
  s.utilizacoes.find? (fun u => u.id == id)

/-- `db.session.get(Veiculo, id)`. -/
def getVeiculo (s : FleetState) (id : Nat) : Option Veiculo :=
  s.veiculos.find? (fun v => v.id == id)

/-- `if veiculo: veiculo.disponivel = b` — a no-op when the id matches no
vehicle, exactly like the guarded attribute assignment in the handlers. -/
def setVeiculoDisp (s : FleetState) (vid : Nat) (b : Bool) : FleetState :=
  { s with veiculos :=
      s.veiculos.map (fun v => if v.id == vid then { v with disponivel := b } else v) }

/-- Mutate the utilizacao row fetched by primary key. -/
def updateUtilizacao (s : FleetState) (id : Nat) (g : Utilizacao → Utilizacao) : FleetState :=
  { s with utilizacoes :=
      s.utilizacoes.map (fun u => if u.id == id then g u else u) }

/-- `ControleKm.query.filter_by(utilizacao_id=...)`. -/
def controlesDe (s : FleetState) (utilizacao_id : Nat) : List ControleKm :=
  s.controles.filter (fun c => c.utilizacao_id == utilizacao_id)

/-- `order_by(ControleKm.mes_ano.desc()).first()`: the checkpoint with the
largest year-month label (ties resolved to the earliest stored row). -/
def latestByMesAno : List ControleKm → Option ControleKm
  | [] => none
  | c :: rest =>
    match latestByMesAno rest with
    | none => some c
    | some b => if b.mes_ano ≤ c.mes_ano then some c else some b

/-- `order_by(ControleKm.mes_ano).first()`: the checkpoint with the smallest
year-month label. -/
def earliestByMesAno : List ControleKm → Option ControleKm
  | [] => none
  | c :: rest =>
    match earliestByMesAno rest with
    | none => some c
    | some b => if c.mes_ano ≤ b.mes_ano then some c else some b

-- -------------------------------------------------
-- derived mileage values, `src/app.py` lines 98-124
-- -------------------------------------------------

/-- `Utilizacao.km_utilizado`, lines 98-101 (`km_entrega` is a non-nullable
column, so only the return reading can be missing). -/
def Utilizacao.km_utilizado (u : Utilizacao) : Int :=
  match u.km_devolucao with
  | some kd => kd - u.km_entrega
  | none => 0

/-- `Utilizacao.excedente`, lines 103-107; `v` is the related vehicle whose
`franquia_km` the method reads through `self.veiculo`. -/
def Utilizacao.excedente (u : Utilizacao) (v : Veiculo) : Int :=
  match u.km_devolucao with
  | some _ => max 0 (u.km_utilizado - v.franquia_km)
  | none => 0

/-- `ControleKm.km_utilizado_mes`, lines 119-120. -/
def ControleKm.km_utilizado_mes (c : ControleKm) : Int :=
  c.km_final_mes - c.km_inicial_mes

/-- `ControleKm.excedente_mes`, lines 122-124; `v` is the vehicle reached
through `self.utilizacao.veiculo`. -/
def ControleKm.excedente_mes (c : ControleKm) (v : Veiculo) : Int :=
  max 0 (c.km_utilizado_mes - v.franquia_km)

-- -------------------------------------------------
-- month-name helpers, `src/app.py` lines 233-248
-- -------------------------------------------------

/-- Character-level lowercase; embeds SQL `func.lower`. -/
def strLower (s : String) : String := String.mk (s.data.map Char.toLower)

/-- Character-level uppercase; embeds Python `str.upper` (ASCII range, so the
cedilla of `MARÇO` stays lowercase — immaterial to every claim). -/
def strUpper (s : String) : String := String.mk (s.data.map Char.toUpper)

/-- Python `str.strip` restricted to spaces. -/
def trimSpaces (s : String) : String :=
  String.mk (((s.data.dropWhile (fun c => c == ' ')).reverse.dropWhile
    (fun c => c == ' ')).reverse)

/-- `mes_para_numero`, lines 233-239: fixed 12-entry month-name table. -/
def mes_para_numero (mes_str : String) : Option Nat :=
  let k := trimSpaces (strUpper mes_str)
  if k == "JANEIRO" then some 1 else if k == "FEVEREIRO" then some 2
  else if k == "MARÇO" then some 3 else if k == "ABRIL" then some 4
  else if k == "MAIO" then some 5 else if k == "JUNHO" then some 6
  else if k == "JULHO" then some 7 else if k == "AGOSTO" then some 8
  else if k == "SETEMBRO" then some 9 else if k == "OUTUBRO" then some 10
  else if k == "NOVEMBRO" then some 11 else if k == "DEZEMBRO" then some 12
  else none

/-- `get_mes_ano_para_db`, lines 242-248, producing the numeric key of the
`f"{ano}-{mes_num}"` label; `ano` is the supplied (or current) year. -/
def get_mes_ano_para_db (mes_nome : String) (ano : Nat) : Option Nat :=
  (mes_para_numero mes_nome).map (fun m => ano * 100 + m)

-- -------------------------------------------------
-- system users (login) routes, `src/app.py` lines 331-376
-- -------------------------------------------------

/-- `AppUser.query.filter_by(is_admin=True, active=True).count()`. -/
def countActiveAdmins (s : FleetState) : Nat :=
  (s.app_users.filter (fun u => u.is_admin && u.active)).length

/-- The five checkbox fields of the permission form (line 347-351); an
unchecked box posts nothing, which `bool(request.form.get(...))` turns into
`False`. -/
structure PermForm where
  is_admin : Bool
  can_edit : Bool
  can_delete : Bool
  can_manage_users : Bool
  active : Bool
deriving DecidableEq

/-- `atualizar_permissoes`, lines 334-354. -/
def atualizar_permissoes (s : FleetState) (user_id : Nat) (f : PermForm) :
    RouteResult FleetState :=
  match s.app_users.find? (fun u => u.id == user_id) with
  | none => .rejected "Usuário não encontrado."
  | some user =>
    if user.is_admin && !f.is_admin && decide (countActiveAdmins s ≤ 1) then
      .rejected "Não é possível remover o último administrador."
    else
      .ok { s with app_users := s.app_users.map (fun u =>
        if u.id == user_id then
          { u with is_admin := f.is_admin, can_edit := f.can_edit,
                   can_delete := f.can_delete, can_manage_users := f.can_manage_users,
                   active := f.active }
        else u) }

/-- `excluir_usuario_sistema`, lines 360-376. -/
def excluir_usuario_sistema (s : FleetState) (user_id : Nat) : RouteResult FleetState :=
  match s.app_users.find? (fun u => u.id == user_id) with
  | none => .rejected "Usuário não encontrado."
  | some user =>
    if user.is_admin && decide (countActiveAdmins s ≤ 1) then
      .rejected "Não é possível excluir o último administrador."
    else
      .ok { s with app_users := s.app_users.filter (fun u => !(u.id == user_id)) }

-- -------------------------------------------------
-- registry deletions, `src/app.py` lines 408-524 and 1202-1223
-- -------------------------------------------------

/-- `excluir_empresa`, lines 411-428. -/
def excluir_empresa (s : FleetState) (id : Nat) : RouteResult FleetState :=
  match s.empresas.find? (fun e => e.id == id) with
  | none => .rejected "Empresa não encontrada."
  | some _ =>
    let tem_veiculos := s.veiculos.any (fun v => v.empresa_id == id)
    let tem_utilizacoes := s.utilizacoes.any (fun u => u.empresa_id == id)
    let tem_multas := s.multas.any (fun m => m.empresa_id == some id)
    if tem_veiculos || tem_utilizacoes || tem_multas then
      .rejected "Não é possível excluir a empresa: existem registros vinculados."
    else
      .ok { s with empresas := s.empresas.filter (fun e => !(e.id == id)) }

/-- `excluir_usuario` (driver), lines 452-464. -/
def excluir_usuario (s : FleetState) (id : Nat) : RouteResult FleetState :=
  match s.usuarios.find? (fun u => u.id == id) with
  | none => .rejected "Usuário não encontrado."
  | some _ =>
    if s.utilizacoes.any (fun u => u.usuario_id == id)
        || s.multas.any (fun m => m.usuario_id == some id) then
      .rejected "Não é possível excluir o usuário: existem registros vinculados."
    else
      .ok { s with usuarios := s.usuarios.filter (fun u => !(u.id == id)) }

/-- `excluir_veiculo`, lines 508-524. -/
def excluir_veiculo (s : FleetState) (id : Nat) : RouteResult FleetState :=
  match s.veiculos.find? (fun v => v.id == id) with
  | none => .rejected "Veículo não encontrado."
  | some _ =>
    let tem_utilizacoes := s.utilizacoes.any (fun u => u.veiculo_id == id)
    let tem_multas := s.multas.any (fun m => m.veiculo_id == some id)
    if tem_utilizacoes || tem_multas then
      .rejected "Não é possível excluir o veículo: existem utilizações ou multas vinculadas a ele."
    else
      .ok { s with veiculos := s.veiculos.filter (fun v => !(v.id == id)) }

/-- `excluir_multa`, lines 1202-1223 (the back-url bookkeeping is rendering
only); a missing id is handled with a flash and redirect. -/
def excluir_multa (s : FleetState) (id : Nat) : RouteResult FleetState :=
  match s.multas.find? (fun m => m.id == id) with
  | none => .rejected "Multa não encontrada."
  | some _ =>
    .ok { s with multas := s.multas.filter (fun m => !(m.id == id)) }

-- -------------------------------------------------
-- utilizacao routes, `src/app.py` lines 548-813
-- -------------------------------------------------

/-- `cadastro_utilizacao` POST branch, lines 554-576: insert an open
assignment and mark the chosen vehicle unavailable.  The form field
`veiculo_id` is taken as posted; the handler never re-checks availability. -/
def cadastro_utilizacao (s : FleetState) (newId usuario_id veiculo_id empresa_id : Nat)
    (data_entrega : Nat) (km_entrega : Int) : FleetState :=
  let uso : Utilizacao :=
    { id := newId, veiculo_id := veiculo_id, usuario_id := usuario_id,
      empresa_id := empresa_id, data_entrega := data_entrega, km_entrega := km_entrega,
      data_devolucao := none, km_devolucao := none }
  setVeiculoDisp { s with utilizacoes := s.utilizacoes ++ [uso] } veiculo_id false

/-- Lines 729-732 of `devolucao`: the floor for the return odometer — the end
reading of the label-latest checkpoint of this utilizacao, else its delivery
odometer; `none` when the utilizacao id matches no row and no checkpoint
exists (there line 732 raises `AttributeError` on `None`). -/
def kmMinimoDe (s : FleetState) (id : Nat) : Option Int :=
  match latestByMesAno (controlesDe s id) with
  | some c => some c.km_final_mes
  | none => (getUtilizacao s id).map (fun u => u.km_entrega)

/-- `devolucao` POST branch, lines 726-756: reject a return odometer below the
floor, then reject a future return date — both before any mutation — else
store both return fields and set the vehicle available again. -/
def devolucao (s : FleetState) (id : Nat) (data_devolucao : Nat) (km_devolucao : Int)
    (today : Nat) : RouteResult FleetState :=
  match kmMinimoDe s id with
  | none => .crash
  | some km_minimo =>
    if km_devolucao < km_minimo then
      .rejected "O KM de devolução não pode ser menor que o último KM registrado."
    else if today < data_devolucao then
      .rejected "A data de devolução não pode ser uma data futura."
    else
      match getUtilizacao s id with
      | none => .crash
      | some u =>
        let s1 := updateUtilizacao s id (fun w =>
          { w with data_devolucao := some data_devolucao, km_devolucao := some km_devolucao })
        .ok (setVeiculoDisp s1 u.veiculo_id true)

/-- `excluir_utilizacao`, lines 764-773: line 766 dereferences the fetched row
without a `None` check, so a missing id raises `AttributeError`. -/
def excluir_utilizacao (s : FleetState) (id : Nat) : RouteResult FleetState :=
  match getUtilizacao s id with
  | none => .crash
  | some u =>
    let s1 := setVeiculoDisp s u.veiculo_id true
    .ok { s1 with utilizacoes := s1.utilizacoes.filter (fun w => !(w.id == id)) }

/-- The five form-field assignments of `editar_utilizacao`, lines 799-803. -/
def editaCampos (nuid nvid neid nd : Nat) (nk : Int) (w : Utilizacao) : Utilizacao :=
  { w with usuario_id := nuid, veiculo_id := nvid, empresa_id := neid,
           data_entrega := nd, km_entrega := nk }

/-- `editar_utilizacao` POST branch, lines 779-811: mark the old vehicle
available, overwrite the identifying fields from the form, mark the new
vehicle unavailable.  Line 783 dereferences the fetched row, so a missing id
raises `AttributeError`. -/
def editar_utilizacao (s : FleetState) (id nuid nvid neid : Nat)
    (ndata_entrega : Nat) (nkm_entrega : Int) : RouteResult FleetState :=
  match getUtilizacao s id with
  | none => .crash
  | some u =>
    let s1 := setVeiculoDisp s u.veiculo_id true
    let s2 := updateUtilizacao s1 id (editaCampos nuid nvid neid ndata_entrega nkm_entrega)
    .ok (setVeiculoDisp s2 nvid false)

/-- Line 687 of `controle_km_mensal`: the suggested start reading — the end
reading of the label-latest checkpoint (`registros_km[0]` of the
`mes_ano.desc()` ordering), else the utilizacao's delivery odometer; `none`
when both are missing (there the line raises `AttributeError` on `None`). -/
def km_inicial_proximo (s : FleetState) (utilizacao_id : Nat) : Option Int :=
  match latestByMesAno (controlesDe s utilizacao_id) with
  | some c => some c.km_final_mes
  | none => (getUtilizacao s utilizacao_id).map (fun u => u.km_entrega)

/-- `controle_km_mensal` POST branch, lines 683-703: store a new checkpoint
with exactly the submitted start and end readings — the suggestion is never
enforced. -/
def controle_km_mensal (s : FleetState) (utilizacao_id newId : Nat) (mes_ano : Nat)
    (km_final_mes km_inicial_mes : Int) : RouteResult FleetState :=
  match km_inicial_proximo s utilizacao_id with
  | none => .crash
  | some _ =>
    .ok { s with controles := s.controles ++
      [{ id := newId, utilizacao_id := utilizacao_id, mes_ano := mes_ano,
         km_inicial_mes := km_inicial_mes, km_final_mes := km_final_mes }] }

/-- `excluir_controle_km`, lines 714-720: line 716 dereferences the fetched
row without a `None` check, so a missing id raises `AttributeError`. -/
def excluir_controle_km (s : FleetState) (id : Nat) : RouteResult FleetState :=
  match s.controles.find? (fun c => c.id == id) with
  | none => .crash
  | some _ =>
    .ok { s with controles := s.controles.filter (fun c => !(c.id == id)) }

-- -------------------------------------------------
-- fine editing, `src/app.py` lines 1154-1196
-- -------------------------------------------------

/-- The fields of the edit-fine form, lines 1174-1190 (all required by the
template; parsing of date, time and amount modelled as already applied). -/
structure MultaEditForm where
  centro_custo : String
  unidade : String
  modalidade : String
  empresa_id : Nat
  placa : String
  mes_referencia_nome : String
  infracao : String
  data_infracao : Nat
  hora_infracao : String
  valor_termo_desc : Float
  desconto_realizado : String
  enviado_email_rh : String
  observacao : String

/-- `editar_multa` POST branch, lines 1154-1194: overwrite the thirteen form
fields of the fetched fine; `usuario_id` and `veiculo_id` are never assigned.
A missing id crashes at line 1174 (`None` attribute assignment); `anoAtual` is
`datetime.now().year`, fed to `get_mes_ano_para_db`. -/
def editar_multa (s : FleetState) (id : Nat) (f : MultaEditForm) (anoAtual : Nat) :
    RouteResult FleetState :=
  match s.multas.find? (fun m => m.id == id) with
  | none => .crash
  | some _ =>
    .ok { s with multas := s.multas.map (fun m =>
      if m.id == id then
        { m with centro_custo := some f.centro_custo, unidade := some f.unidade,
                 modalidade := some f.modalidade, empresa_id := some f.empresa_id,
                 placa := f.placa,
                 mes_referencia := get_mes_ano_para_db f.mes_referencia_nome anoAtual,
                 infracao := some f.infracao, data_infracao := some f.data_infracao,
                 hora_infracao := some f.hora_infracao,
                 valor_termo_desc := some f.valor_termo_desc,
                 desconto_realizado := some f.desconto_realizado,
                 enviado_email_rh := some f.enviado_email_rh,
                 observacao := some f.observacao }
      else m) }

-- -------------------------------------------------
-- spreadsheet import, `src/app.py` lines 906-1032
-- -------------------------------------------------

/-- One spreadsheet row after the header renaming and pandas cell parsing of
lines 927-995; `none` is a missing (`NaN`) cell. -/
structure LinhaPlanilha where
  condutor : Option String
  centro_custo : Option String
  unidade : Option String
  modalidade : Option String
  empresa : Option String
  placa : Option String
  mes_referencia : Option Nat
  infracao : Option String
  data_infracao : Option Nat
  hora_infracao : Option String
  valor_termo_desc : Option Float
  desconto_realizado : Option String
  enviado_email_rh : Option String
  observacao : Option String

/-- The duplicate test of lines 955-959 applied to one stored fine:
SQLAlchemy turns `== None` into `IS NULL`, so `Option` equality is the exact
match semantics (`Multa.placa` is a non-null column, hence the `some`). -/
def sameTriple (m : Multa) (placa : Option String) (dataInf : Option Nat)
    (infr : Option String) : Bool :=
  (some m.placa == placa) && (m.data_infracao == dataInf) && (m.infracao == infr)

/-- `Multa.query.filter(...).first()` of lines 955-959 seen as a Boolean. -/
def tripleExists (multas : List Multa) (placa : Option String) (dataInf : Option Nat)
    (infr : Option String) : Bool :=
  multas.any (fun m => sameTriple m placa dataInf infr)

/-- Number of stored fines matching one (plate, infraction date, infraction
text) triple. -/
def countTriple (multas : List Multa) (placa : Option String) (dataInf : Option Nat)
    (infr : Option String) : Nat :=
  (multas.filter (fun m => sameTriple m placa dataInf infr)).length

/-- The three case-insensitive lookups of lines 963-970. -/
def resolveLinha (s : FleetState) (r : LinhaPlanilha) :
    Option Nat × Option Nat × Option Nat :=
  let usuario_id := (r.condutor.bind (fun n =>
    s.usuarios.find? (fun u => strLower u.nome == strLower n))).map (fun u => u.id)
  let veiculo_id := (r.placa.bind (fun p =>
    s.veiculos.find? (fun v => strLower v.placa == strLower p))).map (fun v => v.id)
  let empresa_id := (r.empresa.bind (fun e =>
    s.empresas.find? (fun em => strLower em.nome == strLower e))).map (fun em => em.id)
  (usuario_id, veiculo_id, empresa_id)

/-- Whether the resolution guard of line 997 lets the row through. -/
def linhaResolve (s : FleetState) (r : LinhaPlanilha) : Bool :=
  (resolveLinha s r).1.isSome && (resolveLinha s r).2.1.isSome
    && (resolveLinha s r).2.2.isSome

/-- The fine inserted for one resolved spreadsheet row, lines 1001-1018. -/
def linhaToMulta (s : FleetState) (nextId : Nat) (r : LinhaPlanilha) : Multa :=
  { id := nextId, usuario_id := (resolveLinha s r).1,
    veiculo_id := (resolveLinha s r).2.1,
    centro_custo := r.centro_custo, unidade := r.unidade,
    modalidade := r.modalidade, empresa_id := (resolveLinha s r).2.2,
    placa := r.placa.getD "", mes_referencia := r.mes_referencia,
    infracao := r.infracao, data_infracao := r.data_infracao,
    hora_infracao := r.hora_infracao, valor_termo_desc := r.valor_termo_desc,
    desconto_realizado := r.desconto_realizado,
    enviado_email_rh := r.enviado_email_rh, observacao := r.observacao }

/-- One iteration of the import loop, lines 948-1022: skip a row whose triple
already matches a stored fine, skip a row whose driver, vehicle or company
does not resolve, else insert the fine (with the next fresh primary key). -/
def processLinha (acc : FleetState × Nat) (r : LinhaPlanilha) : FleetState × Nat :=
  if tripleExists acc.1.multas r.placa r.data_infracao r.infracao then
    acc
  else if linhaResolve acc.1 r then
    ({ acc.1 with multas := acc.1.multas ++ [linhaToMulta acc.1 acc.2 r] }, acc.2 + 1)
  else acc

/-- `importar_multas` POST loop, lines 948-1024: fold the rows in order; the
single commit at line 1024 is the identity on this model since every accepted
row is already in the accumulated state (autoflush). -/
def importar_multas (s : FleetState) (nextId : Nat) (linhas : List LinhaPlanilha) :
    FleetState :=
  (linhas.foldl processLinha (s, nextId)).1

-- -------------------------------------------------
-- mileage report, `src/app.py` lines 1229-1317
-- -------------------------------------------------

/-- The report filters: a `"YYYY-MM"` range (numeric keys) plus optional
vehicle and driver ids, lines 1235-1242. -/
structure KmFiltro where
  mes_ano_inicio : Nat
  mes_ano_fim : Nat
  veiculo_id : Option Nat
  usuario_id : Option Nat

/-- Driver name reached through `ControleKm → Utilizacao → Usuario`. -/
def driverNameOf (s : FleetState) (c : ControleKm) : Option String :=
  (getUtilizacao s c.utilizacao_id).bind (fun u =>
    (s.usuarios.find? (fun d => d.id == u.usuario_id)).map (fun d => d.nome))

/-- The checkpoints selected by the report, lines 1274-1291: joined to their
utilizacao, label inside the inclusive `between` range, matching the optional
vehicle and driver filters. -/
def inRangeControles (s : FleetState) (f : KmFiltro) : List ControleKm :=
  s.controles.filter (fun c =>
    match getUtilizacao s c.utilizacao_id with
    | none => false
    | some u =>
      decide (f.mes_ano_inicio ≤ c.mes_ano) && decide (c.mes_ano ≤ f.mes_ano_fim)
        && (match f.veiculo_id with | some vid => u.veiculo_id == vid | none => true)
        && (match f.usuario_id with | some uid2 => u.usuario_id == uid2 | none => true))

/-- One driver's figure in `km_por_motorista`, lines 1268-1283:
`SUM(km_final_mes - km_inicial_mes)` grouped by `Usuario.nome` (the join to
`Usuario` drops checkpoints whose driver row is missing). -/
def kmPorMotorista (s : FleetState) (f : KmFiltro) (nome : String) : Int :=
  (((inRangeControles s f).filter (fun c => driverNameOf s c == some nome)).map
    (fun c => c.km_final_mes - c.km_inicial_mes)).sum

/-- `km_total_rodado_periodo`, lines 1285-1301: last in-range checkpoint's end
reading minus first in-range checkpoint's start reading, both by label order;
0 when the range is empty. -/
def kmTotalPeriodo (s : FleetState) (f : KmFiltro) : Int :=
  match earliestByMesAno (inRangeControles s f), latestByMesAno (inRangeControles s f) with
  | some primeiro, some ultimo => ultimo.km_final_mes - primeiro.km_inicial_mes
  | _, _ => 0

-- -------------------------------------------------
-- invariants under study
-- -------------------------------------------------

/-- Some open (return date `NULL`) utilizacao references vehicle `vid`. -/
def openUtilOn (uts : List Utilizacao) (vid : Nat) : Bool :=
  uts.any (fun u => u.veiculo_id == vid && u.data_devolucao.isNone)

/-- The spec's availability invariant: a vehicle's flag is `false` exactly
when an open utilizacao references it. -/
def availabilityInv (s : FleetState) : Bool :=
  s.veiculos.all (fun v => v.disponivel == !openUtilOn s.utilizacoes v.id)

/-- The availability invariant of the state a handler committed (`true` on
the rejection and crash paths, which commit nothing). -/
def resultInvariant (r : RouteResult FleetState) : Bool :=
  match r with
  | .ok s => availabilityInv s
  | _ => true

/-- Active-admin count of the state a handler committed, `none` when nothing
was committed. -/
def resultActiveAdmins (r : RouteResult FleetState) : Option Nat :=
  match r with
  | .ok s => some (countActiveAdmins s)
  | _ => none

-- -------------------------------------------------
-- concrete fixtures used by witnesses and counterexamples
-- -------------------------------------------------

def emptyFleet : FleetState := ⟨[], [], [], [], [], [], []⟩

def mkEmpresa (id : Nat) (nome : String) : Empresa := ⟨id, nome⟩

def mkUsuario (id : Nat) (nome : String) : Usuario := ⟨id, nome, "Analista", "Frota"⟩

def mkVeiculo (id empresa : Nat) (placa : String) (disp : Bool) : Veiculo :=
  ⟨id, "Fiat Uno", placa, "prata", 2000, empresa, 1, disp⟩

/-- An open assignment of driver 1 to vehicle 1. -/
def exUsoAberto : Utilizacao := ⟨1, 1, 1, 1, 1, 100, none, none⟩

/-- The same assignment already returned. -/
def exUsoFechado : Utilizacao := ⟨1, 1, 1, 1, 1, 100, some 5, some 200⟩

/-- Vehicle 1 in use (open assignment), vehicle 2 free: the availability
invariant holds. -/
def stAberto : FleetState :=
  { emptyFleet with
      empresas := [mkEmpresa 1 "Empresa A"], usuarios := [mkUsuario 1 "Ana"],
      veiculos := [mkVeiculo 1 1 "AAA1111" false, mkVeiculo 2 1 "BBB2222" true],
      utilizacoes := [exUsoAberto] }

/-- A returned assignment on vehicle 1; both vehicles free: the availability
invariant holds. -/
def stFechado : FleetState :=
  { emptyFleet with
      empresas := [mkEmpresa 1 "Empresa A"], usuarios := [mkUsuario 1 "Ana"],
      veiculos := [mkVeiculo 1 1 "AAA1111" true, mkVeiculo 2 1 "BBB2222" true],
      utilizacoes := [exUsoFechado] }

/-- Exactly one application user: an active admin. -/
def stAdminSolo : FleetState :=
  { emptyFleet with app_users := [⟨1, "admin", true, true, true, true, true⟩] }

/-- Two active admins. -/
def stAdminDois : FleetState :=
  { emptyFleet with app_users :=
      [⟨1, "admin", true, true, true, true, true⟩,
       ⟨2, "gestor", true, true, true, true, true⟩] }

/-- The permission form that unchecks the admin box but keeps the user
active. -/
def permSemAdmin : PermForm := ⟨false, true, false, false, true⟩

/-- The permission form that keeps the admin box checked but unchecks the
active box. -/
def permDesativa : PermForm := ⟨true, true, true, true, false⟩

/-- Open assignment on vehicle 1 with one stored checkpoint ending at 150. -/
def stComControle : FleetState :=
  { emptyFleet with
      empresas := [mkEmpresa 1 "Empresa A"], usuarios := [mkUsuario 1 "Ana"],
      veiculos := [mkVeiculo 1 1 "AAA1111" false],
      utilizacoes := [exUsoAberto],
      controles := [⟨1, 1, 202501, 100, 150⟩] }

/-- The worked example of the spec: delivered at 1000, returned at 3500. -/
def exemploUso : Utilizacao := ⟨1, 1, 1, 1, 1, 1000, some 10, some 3500⟩

/-- A vehicle with the default 2000 km allowance. -/
def exemploVeiculo : Veiculo := mkVeiculo 1 1 "AAA1111" true

/-- A company referenced by a vehicle but by no utilizacao and no fine. -/
def stEmpresaComVeiculo : FleetState :=
  { emptyFleet with
      empresas := [mkEmpresa 1 "Empresa A"],
      veiculos := [mkVeiculo 1 1 "AAA1111" true] }

/-- A company with no dependent row at all. -/
def stEmpresaLivre : FleetState :=
  { emptyFleet with empresas := [mkEmpresa 1 "Empresa A"] }

/-- Registries where driver 1 and vehicle 1 are referenced by an open
utilizacao. -/
def stComDependentes : FleetState := stAberto

/-- Registries for the import witness: driver `Ana`, plate `ABC1234`,
company `Empresa X`, no stored fine. -/
def stImport : FleetState :=
  { emptyFleet with
      empresas := [mkEmpresa 1 "Empresa X"], usuarios := [mkUsuario 1 "Ana"],
      veiculos := [mkVeiculo 1 1 "ABC1234" true] }

/-- A spreadsheet row for driver `Ana`, plate `ABC1234`, company `Empresa X`,
infraction `Avanço de sinal` on day 5. -/
def linhaAna : LinhaPlanilha :=
  ⟨some "Ana", some "Frota", none, none, some "Empresa X", some "ABC1234",
   some 202501, some "Avanço de sinal", some 5, some "10:30", none,
   some "Sim", some "Não", none⟩

/-- The same triple typed by someone else (resolution data irrelevant). -/
def linhaAnaDup : LinhaPlanilha :=
  ⟨some "Ana", none, none, none, some "Empresa X", some "ABC1234",
   some 202501, some "Avanço de sinal", some 5, none, none, none, none, none⟩

/-- Two months of checkpoints for the open assignment of `Ana` on vehicle 1:
January 100 → 200, February 200 → 350. -/
def stRelatorio : FleetState :=
  { emptyFleet with
      empresas := [mkEmpresa 1 "Empresa A"], usuarios := [mkUsuario 1 "Ana"],
      veiculos := [mkVeiculo 1 1 "AAA1111" false],
      utilizacoes := [exUsoAberto],
      controles := [⟨1, 1, 202501, 100, 200⟩, ⟨2, 1, 202502, 200, 350⟩] }

/-- Vehicle-1 report over January–February. -/
def filtroRelatorio : KmFiltro := ⟨202501, 202502, some 1, none⟩

/-- One stored fine linked to driver 1 and vehicle 1. -/
def exMulta : Multa :=
  ⟨1, some 1, some 1, some "Frota", none, none, some 1, "ABC1234", some 202501,
   some "Avanço de sinal", some 5, some "10:30", none, some "Sim", some "Não", none⟩

def stComMulta : FleetState := { emptyFleet with multas := [exMulta] }

/-- An edit-fine form changing every editable field. -/
def formEditMulta : MultaEditForm :=
  ⟨"Financeiro", "Matriz", "Leve", 1, "XYZ9876", "Fevereiro", "Excesso de velocidade",
   7, "11:45", 150.5, "Não", "Sim", "reavaliada"⟩

-- -------------------------------------------------
-- theorems
-- -------------------------------------------------

/-- Claim C4: for every Utilization with both odometer readings set, mileage
used equals return odometer minus delivery odometer (and equals 0 when not
yet returned), and overage equals `max 0 (used - allowance)`; the same
formulas hold per monthly checkpoint against the same allowance; the spec's
worked example (delivery 1000, return 3500, allowance 2000) gives used 2500
and overage 500. -/
theorem C4_km_utilizado_excedente :
    (∀ (u : Utilizacao) (kd : Int), u.km_devolucao = some kd →
        u.km_utilizado = kd - u.km_entrega) ∧
    (∀ u : Utilizacao, u.km_devolucao = none → u.km_utilizado = 0) ∧
    (∀ (u : Utilizacao) (v : Veiculo) (kd : Int), u.km_devolucao = some kd →
        u.excedente v = max 0 (u.km_utilizado - v.franquia_km)) ∧
    (∀ (u : Utilizacao) (v : Veiculo), u.km_devolucao = none → u.excedente v = 0) ∧
    (∀ c : ControleKm, c.km_utilizado_mes = c.km_final_mes - c.km_inicial_mes) ∧
    (∀ (c : ControleKm) (v : Veiculo),
        c.excedente_mes v = max 0 (c.km_utilizado_mes - v.franquia_km)) ∧
    exemploUso.km_utilizado = 2500 ∧ exemploUso.excedente exemploVeiculo = 500 := by
  refine ⟨?_, ?_, ?_, ?_, ?_, ?_, ?_, ?_⟩
  · intro u kd h; simp [Utilizacao.km_utilizado, h]
  · intro u h; simp [Utilizacao.km_utilizado, h]
  · intro u v kd h; simp [Utilizacao.excedente, h]
  · intro u v h; simp [Utilizacao.excedente, h]
  · intro c; rfl
  · intro c v; rfl
  · decide
  · decide

/-- Witness for C4 at the spec's worked example. -/
theorem C4_witness :
    exemploUso.km_utilizado = 3500 - 1000 ∧
    exemploUso.excedente exemploVeiculo
      = max 0 (exemploUso.km_utilizado - exemploVeiculo.franquia_km) :=
  ⟨C4_km_utilizado_excedente.1 exemploUso 3500 rfl,
   C4_km_utilizado_excedente.2.2.1 exemploUso exemploVeiculo 3500 rfl⟩

/-- Claim C10: an edit-fine submission updates only the thirteen listed form
fields; the fine's linked driver (`usuario_id`) and linked vehicle
(`veiculo_id`) — and its primary key — are unchanged for every stored fine. -/
theorem C10_editar_multa_frame (s : FleetState) (id : Nat) (f : MultaEditForm)
    (ano : Nat) (s' : FleetState) (hok : editar_multa s id f ano = .ok s') :
    s'.multas.map (fun m => (m.id, m.usuario_id, m.veiculo_id))
      = s.multas.map (fun m => (m.id, m.usuario_id, m.veiculo_id)) := by
  unfold editar_multa at hok
  cases hfind : s.multas.find? (fun m => m.id == id) with
  | none => rw [hfind] at hok; exact absurd hok (by simp)
  | some m0 =>
    rw [hfind] at hok
    simp only [RouteResult.ok.injEq] at hok
    subst hok
    simp only [List.map_map]
    apply List.map_congr_left
    intro m hm
    by_cases h : m.id = id <;> simp [h]

/-- Witness for C10: the concrete edit changes every editable field yet keeps
each fine's id, driver and vehicle links. -/
theorem C10_witness :
    (okState (editar_multa stComMulta 1 formEditMulta 2025) stComMulta).multas.map
        (fun m => (m.id, m.usuario_id, m.veiculo_id))
      = stComMulta.multas.map (fun m => (m.id, m.usuario_id, m.veiculo_id)) :=
  C10_editar_multa_frame stComMulta 1 formEditMulta 2025 _ rfl

/-- Claim C9: the delete-Utilization and delete-checkpoint handlers assume
the target row exists — a missing id crashes (unhandled `AttributeError`)
while an existing id succeeds; every other delete route answers a missing id
with a handled flash-and-redirect. -/
theorem C9_exclusao_sem_registro (s : FleetState) (id : Nat) :
    (getUtilizacao s id = none → excluir_utilizacao s id = .crash) ∧
    ((getUtilizacao s id).isSome = true → isOk (excluir_utilizacao s id) = true) ∧
    (s.controles.find? (fun c => c.id == id) = none → excluir_controle_km s id = .crash) ∧
    ((s.controles.find? (fun c => c.id == id)).isSome = true →
        isOk (excluir_controle_km s id) = true) ∧
    (s.empresas.find? (fun e => e.id == id) = none →
        isRejected (excluir_empresa s id) = true) ∧
    (s.usuarios.find? (fun u => u.id == id) = none →
        isRejected (excluir_usuario s id) = true) ∧
    (s.veiculos.find? (fun v => v.id == id) = none →
        isRejected (excluir_veiculo s id) = true) ∧
    (s.multas.find? (fun m => m.id == id) = none →
        isRejected (excluir_multa s id) = true) := by
  refine ⟨?_, ?_, ?_, ?_, ?_, ?_, ?_, ?_⟩
  · intro h; unfold excluir_utilizacao; rw [h]
  · intro h
    obtain ⟨u, hu⟩ := Option.isSome_iff_exists.mp h
    unfold excluir_utilizacao; rw [hu]; rfl
  · intro h; unfold excluir_controle_km; rw [h]
  · intro h
    obtain ⟨c, hc⟩ := Option.isSome_iff_exists.mp h
    unfold excluir_controle_km; rw [hc]; rfl
  · intro h; unfold excluir_empresa; rw [h]; rfl
  · intro h; unfold excluir_usuario; rw [h]; rfl
  · intro h; unfold excluir_veiculo; rw [h]; rfl
  · intro h; unfold excluir_multa; rw [h]; rfl

/-- Witness for C9: concrete crashes on the empty database, a handled
rejection for the company route, and success on an existing row. -/
theorem C9_witness :
    excluir_utilizacao emptyFleet 1 = .crash ∧
    excluir_controle_km emptyFleet 1 = .crash ∧
    isRejected (excluir_empresa emptyFleet 1) = true ∧
    isOk (excluir_utilizacao stAberto 1) = true :=
  ⟨(C9_exclusao_sem_registro emptyFleet 1).1 rfl,
   (C9_exclusao_sem_registro emptyFleet 1).2.2.1 rfl,
   (C9_exclusao_sem_registro emptyFleet 1).2.2.2.2.1 rfl,
   (C9_exclusao_sem_registro stAberto 1).2.1 rfl⟩

/-- Claim C2 (code bug evidence): the two guarded paths behave exactly as
claimed — removing the admin flag from the sole active admin is rejected,
deleting the sole active admin is rejected, and both succeed with two active
admins — yet submitting the permission form with the admin box still checked
and the active box cleared deactivates the sole active admin, committing a
state with zero active admins. -/
theorem C2_ultimo_admin_ativo :
    (atualizar_permissoes stAdminSolo 1 permSemAdmin
        = .rejected "Não é possível remover o último administrador.") ∧
    (excluir_usuario_sistema stAdminSolo 1
        = .rejected "Não é possível excluir o último administrador.") ∧
    (isOk (atualizar_permissoes stAdminDois 1 permSemAdmin) = true) ∧
    (isOk (excluir_usuario_sistema stAdminDois 1) = true) ∧
    (countActiveAdmins stAdminSolo = 1) ∧
    (resultActiveAdmins (atualizar_permissoes stAdminSolo 1 permDesativa) = some 0) :=
  ⟨rfl, rfl, rfl, rfl, rfl, rfl⟩

/-- Counterexample to C1 as stated: in a state satisfying the availability
invariant, editing an already-returned utilizacao onto vehicle 2 commits a
state where vehicle 2 is unavailable although no open utilizacao references
it. -/
theorem C1_contraexemplo :
    availabilityInv stFechado = true ∧
    resultInvariant (editar_utilizacao stFechado 1 1 2 1 1 100) = false :=
  ⟨rfl, rfl⟩

/-- Counterexample to C5 as stated: a company referenced by no utilizacao and
no fine — only by a vehicle — cannot be deleted. -/
theorem C5_contraexemplo :
    (stEmpresaComVeiculo.utilizacoes.any (fun u => u.empresa_id == 1) = false) ∧
    (stEmpresaComVeiculo.multas.any (fun m => m.empresa_id == some 1) = false) ∧
    ((stEmpresaComVeiculo.empresas.find? (fun e => e.id == 1)).isSome = true) ∧
    (isOk (excluir_empresa stEmpresaComVeiculo 1) = false) :=
  ⟨rfl, rfl, rfl, rfl⟩

/-- One unfolding step of `latestByMesAno`. -/
theorem latestByMesAno_cons (a : ControleKm) (t : List ControleKm) :
    latestByMesAno (a :: t)
      = match latestByMesAno t with
        | none => some a
        | some b => if b.mes_ano ≤ a.mes_ano then some a else some b := rfl

/-- A nonempty list always has a label-latest checkpoint. -/
theorem latestByMesAno_cons_ne_none (a : ControleKm) (t : List ControleKm) :
    latestByMesAno (a :: t) ≠ none := by
  rw [latestByMesAno_cons]
  cases latestByMesAno t with
  | none => exact (show (some a : Option ControleKm) ≠ none by simp)
  | some b =>
    refine (show (if b.mes_ano ≤ a.mes_ano then some a else some b) ≠ none from ?_)
    split <;> simp

/-- The label-latest checkpoint is one of the checkpoints. -/
theorem latestByMesAno_mem (l : List ControleKm) (b : ControleKm)
    (hb : latestByMesAno l = some b) : b ∈ l := by
  induction l generalizing b with
  | nil => exact absurd (show (none : Option ControleKm) = some b from hb) (by simp)
  | cons a t ih =>
    rw [latestByMesAno_cons] at hb
    cases ht : latestByMesAno t with
    | none =>
      rw [ht] at hb
      have hb2 : some a = some b := hb
      cases hb2; exact .head _
    | some bt =>
      rw [ht] at hb
      have hb2 : (if bt.mes_ano ≤ a.mes_ano then some a else some bt) = some b := hb
      split at hb2
      · cases hb2; exact .head _
      · cases hb2; exact .tail _ (ih _ ht)

/-- The label-latest checkpoint has the largest year-month label. -/
theorem latestByMesAno_max (l : List ControleKm) (b : ControleKm)
    (hb : latestByMesAno l = some b) : ∀ c ∈ l, c.mes_ano ≤ b.mes_ano := by
  induction l generalizing b with
  | nil => exact absurd (show (none : Option ControleKm) = some b from hb) (by simp)
  | cons a t ih =>
    intro c hc
    rw [latestByMesAno_cons] at hb
    cases ht : latestByMesAno t with
    | none =>
      rw [ht] at hb
      have hb2 : some a = some b := hb
      cases hb2
      cases t with
      | nil =>
        rcases List.mem_cons.mp hc with rfl | h0
        · exact le_refl _
        · exact absurd h0 (List.not_mem_nil c)
      | cons x xs => exact absurd ht (latestByMesAno_cons_ne_none x xs)
    | some bt =>
      rw [ht] at hb
      have hb2 : (if bt.mes_ano ≤ a.mes_ano then some a else some bt) = some b := hb
      split at hb2
      case isTrue hle =>
        cases hb2
        rcases List.mem_cons.mp hc with rfl | hct
        · exact le_refl _
        · exact le_trans (ih _ ht c hct) hle
      case isFalse hgt =>
        cases hb2
        rcases List.mem_cons.mp hc with rfl | hct
        · exact le_of_lt (not_le.mp hgt)
        · exact ih _ ht c hct

/-- Reduction of `excluir_empresa` once the company row is found. -/
theorem excluir_empresa_found (s : FleetState) (id : Nat) (e : Empresa)
    (he : s.empresas.find? (fun x => x.id == id) = some e) :
    excluir_empresa s id
      = if (s.veiculos.any (fun v => v.empresa_id == id)
          || s.utilizacoes.any (fun u => u.empresa_id == id)
          || s.multas.any (fun m => m.empresa_id == some id))
        then .rejected "Não é possível excluir a empresa: existem registros vinculados."
        else .ok { s with empresas := s.empresas.filter (fun x => !(x.id == id)) } := by
  unfold excluir_empresa; rw [he]

/-- Reduction of `excluir_usuario` once the driver row is found. -/
theorem excluir_usuario_found (s : FleetState) (id : Nat) (e : Usuario)
    (he : s.usuarios.find? (fun x => x.id == id) = some e) :
    excluir_usuario s id
      = if (s.utilizacoes.any (fun u => u.usuario_id == id)
          || s.multas.any (fun m => m.usuario_id == some id))
        then .rejected "Não é possível excluir o usuário: existem registros vinculados."
        else .ok { s with usuarios := s.usuarios.filter (fun x => !(x.id == id)) } := by
  unfold excluir_usuario; rw [he]

/-- Reduction of `excluir_veiculo` once the vehicle row is found. -/
theorem excluir_veiculo_found (s : FleetState) (id : Nat) (e : Veiculo)
    (he : s.veiculos.find? (fun x => x.id == id) = some e) :
    excluir_veiculo s id
      = if (s.utilizacoes.any (fun u => u.veiculo_id == id)
          || s.multas.any (fun m => m.veiculo_id == some id))
        then .rejected "Não é possível excluir o veículo: existem utilizações ou multas vinculadas a ele."
        else .ok { s with veiculos := s.veiculos.filter (fun x => !(x.id == id)) } := by
  unfold excluir_veiculo; rw [he]

/-- Claim C3: recording a return rejects a submitted odometer below the
minimum (the label-latest checkpoint's end reading, or the delivery odometer
when no checkpoint exists) and rejects a return date after today, committing
nothing in either rejection; otherwise it stores the return date and
odometer and sets the vehicle available again. -/
theorem C3_devolucao_regras (s : FleetState) (id dd today : Nat) (km km0 : Int)
    (u : Utilizacao) (hu : getUtilizacao s id = some u)
    (hmin : kmMinimoDe s id = some km0) :
    (km < km0 → devolucao s id dd km today
        = .rejected "O KM de devolução não pode ser menor que o último KM registrado.") ∧
    (km0 ≤ km → today < dd → devolucao s id dd km today
        = .rejected "A data de devolução não pode ser uma data futura.") ∧
    (km0 ≤ km → dd ≤ today →
      devolucao s id dd km today
        = .ok (setVeiculoDisp (updateUtilizacao s id (fun w =>
            { w with data_devolucao := some dd, km_devolucao := some km }))
            u.veiculo_id true)) ∧
    (latestByMesAno (controlesDe s id) = none → km0 = u.km_entrega) ∧
    (∀ c, latestByMesAno (controlesDe s id) = some c →
        km0 = c.km_final_mes ∧ ∀ cc ∈ controlesDe s id, cc.mes_ano ≤ c.mes_ano) := by
  refine ⟨?_, ?_, ?_, ?_, ?_⟩
  · intro hlt
    unfold devolucao; rw [hmin]; simp [hlt]
  · intro hge hfut
    unfold devolucao; rw [hmin]; simp [not_lt.mpr hge, hfut]
  · intro hge hle
    unfold devolucao; rw [hmin]
    simp only [not_lt.mpr hge, if_false, not_lt.mpr hle]
    rw [hu]
  · intro hnone
    unfold kmMinimoDe at hmin; rw [hnone, hu] at hmin
    simp at hmin; omega
  · intro c hc
    unfold kmMinimoDe at hmin; rw [hc] at hmin
    simp at hmin
    exact ⟨hmin.symm, latestByMesAno_max _ c hc⟩

/-- Witness for C3 on a concrete open utilizacao whose stored checkpoint ends
at 150: a return at 140 km is rejected, a return dated after today is
rejected, and a valid return commits the two fields and frees the vehicle. -/
theorem C3_witness :
    devolucao stComControle 1 5 140 10
      = .rejected "O KM de devolução não pode ser menor que o último KM registrado." ∧
    devolucao stComControle 1 12 200 10
      = .rejected "A data de devolução não pode ser uma data futura." ∧
    devolucao stComControle 1 5 200 10
      = .ok (setVeiculoDisp (updateUtilizacao stComControle 1 (fun w =>
          { w with data_devolucao := some 5, km_devolucao := some 200 }))
          exUsoAberto.veiculo_id true) :=
  ⟨(C3_devolucao_regras stComControle 1 5 10 140 150 exUsoAberto rfl rfl).1 (by decide),
   (C3_devolucao_regras stComControle 1 12 10 200 150 exUsoAberto rfl rfl).2.1
      (by decide) (by decide),
   (C3_devolucao_regras stComControle 1 5 10 200 150 exUsoAberto rfl rfl).2.2.1
      (by decide) (by decide)⟩

/-- Claim C5 (amended): deleting a Driver or Vehicle with a dependent
Utilization or Fine row is rejected, and deleting a Company with a dependent
Vehicle, Utilization or Fine row is rejected — the row stays; deleting one
with no such dependant succeeds and removes exactly that row. -/
theorem C5_exclusoes_guardadas (s : FleetState) (id : Nat) :
    ((s.empresas.find? (fun e => e.id == id)).isSome = true →
      (s.veiculos.any (fun v => v.empresa_id == id)
        || s.utilizacoes.any (fun u => u.empresa_id == id)
        || s.multas.any (fun m => m.empresa_id == some id)) = true →
      isRejected (excluir_empresa s id) = true) ∧
    ((s.empresas.find? (fun e => e.id == id)).isSome = true →
      (s.veiculos.any (fun v => v.empresa_id == id)
        || s.utilizacoes.any (fun u => u.empresa_id == id)
        || s.multas.any (fun m => m.empresa_id == some id)) = false →
      excluir_empresa s id
        = .ok { s with empresas := s.empresas.filter (fun e => !(e.id == id)) }) ∧
    ((s.usuarios.find? (fun u => u.id == id)).isSome = true →
      (s.utilizacoes.any (fun u => u.usuario_id == id)
        || s.multas.any (fun m => m.usuario_id == some id)) = true →
      isRejected (excluir_usuario s id) = true) ∧
    ((s.usuarios.find? (fun u => u.id == id)).isSome = true →
      (s.utilizacoes.any (fun u => u.usuario_id == id)
        || s.multas.any (fun m => m.usuario_id == some id)) = false →
      excluir_usuario s id
        = .ok { s with usuarios := s.usuarios.filter (fun u => !(u.id == id)) }) ∧
    ((s.veiculos.find? (fun v => v.id == id)).isSome = true →
      (s.utilizacoes.any (fun u => u.veiculo_id == id)
        || s.multas.any (fun m => m.veiculo_id == some id)) = true →
      isRejected (excluir_veiculo s id) = true) ∧
    ((s.veiculos.find? (fun v => v.id == id)).isSome = true →
      (s.utilizacoes.any (fun u => u.veiculo_id == id)
        || s.multas.any (fun m => m.veiculo_id == some id)) = false →
      excluir_veiculo s id
        = .ok { s with veiculos := s.veiculos.filter (fun v => !(v.id == id)) }) := by
  refine ⟨?_, ?_, ?_, ?_, ?_, ?_⟩
  · intro hfind hdep
    obtain ⟨e, he⟩ := Option.isSome_iff_exists.mp hfind
    rw [excluir_empresa_found s id e he, if_pos hdep]; rfl
  · intro hfind hdep
    obtain ⟨e, he⟩ := Option.isSome_iff_exists.mp hfind
    rw [excluir_empresa_found s id e he, if_neg (by simp [hdep])]
  · intro hfind hdep
    obtain ⟨e, he⟩ := Option.isSome_iff_exists.mp hfind
    rw [excluir_usuario_found s id e he, if_pos hdep]; rfl
  · intro hfind hdep
    obtain ⟨e, he⟩ := Option.isSome_iff_exists.mp hfind
    rw [excluir_usuario_found s id e he, if_neg (by simp [hdep])]
  · intro hfind hdep
    obtain ⟨e, he⟩ := Option.isSome_iff_exists.mp hfind
    rw [excluir_veiculo_found s id e he, if_pos hdep]; rfl
  · intro hfind hdep
    obtain ⟨e, he⟩ := Option.isSome_iff_exists.mp hfind
    rw [excluir_veiculo_found s id e he, if_neg (by simp [hdep])]

/-- Witness for C5: concrete guarded rejections (company blocked by its
vehicle, driver and vehicle blocked by an open utilizacao) and concrete
successful deletions removing exactly the targeted row. -/
theorem C5_witness :
    isRejected (excluir_empresa stEmpresaComVeiculo 1) = true ∧
    excluir_empresa stEmpresaLivre 1
      = .ok { stEmpresaLivre with
                empresas := stEmpresaLivre.empresas.filter (fun e => !(e.id == 1)) } ∧
    isRejected (excluir_usuario stAberto 1) = true ∧
    excluir_usuario stImport 1
      = .ok { stImport with
                usuarios := stImport.usuarios.filter (fun u => !(u.id == 1)) } ∧
    isRejected (excluir_veiculo stAberto 1) = true ∧
    excluir_veiculo stEmpresaComVeiculo 1
      = .ok { stEmpresaComVeiculo with
                veiculos := stEmpresaComVeiculo.veiculos.filter (fun v => !(v.id == 1)) } :=
  ⟨(C5_exclusoes_guardadas stEmpresaComVeiculo 1).1 (by decide) (by decide),
   (C5_exclusoes_guardadas stEmpresaLivre 1).2.1 (by decide) (by decide),
   (C5_exclusoes_guardadas stAberto 1).2.2.1 (by decide) (by decide),
   (C5_exclusoes_guardadas stImport 1).2.2.2.1 (by decide) (by decide),
   (C5_exclusoes_guardadas stAberto 1).2.2.2.2.1 (by decide) (by decide),
   (C5_exclusoes_guardadas stEmpresaComVeiculo 1).2.2.2.2.2 (by decide) (by decide)⟩

/-- Claim C7: the suggested start reading for a new checkpoint equals the end
reading of the stored checkpoint that is latest by year-month label (not by
creation order), or the utilizacao's delivery odometer when no checkpoint
exists; the stored checkpoint keeps exactly the submitted start and end
readings, so continuity is never enforced. -/
theorem C7_sugestao_km (s : FleetState) (uid : Nat) :
    (∀ c, latestByMesAno (controlesDe s uid) = some c →
        km_inicial_proximo s uid = some c.km_final_mes ∧
        ∀ cc ∈ controlesDe s uid, cc.mes_ano ≤ c.mes_ano) ∧
    (∀ u, latestByMesAno (controlesDe s uid) = none → getUtilizacao s uid = some u →
        km_inicial_proximo s uid = some u.km_entrega) ∧
    (∀ newId mes_ano kf ki s', controle_km_mensal s uid newId mes_ano kf ki = .ok s' →
        s'.controles = s.controles
          ++ [⟨newId, uid, mes_ano, ki, kf⟩]) := by
  refine ⟨?_, ?_, ?_⟩
  · intro c hc
    constructor
    · unfold km_inicial_proximo; rw [hc]
    · exact latestByMesAno_max _ c hc
  · intro u hnone hu
    unfold km_inicial_proximo; rw [hnone, hu]; rfl
  · intro newId mes_ano kf ki s' hok
    unfold controle_km_mensal at hok
    cases hk : km_inicial_proximo s uid with
    | none => rw [hk] at hok; exact absurd hok (by simp)
    | some v0 =>
      rw [hk] at hok
      simp only [RouteResult.ok.injEq] at hok
      subst hok
      rfl

/-- Witness for C7: with a stored January checkpoint ending at 150 the
suggestion is 150 (and January is the label maximum); with no checkpoint the
suggestion is the delivery odometer 100; a submitted start of 90 — ignoring
the suggestion — is stored verbatim. -/
theorem C7_witness :
    km_inicial_proximo stComControle 1 = some 150 ∧
    km_inicial_proximo stAberto 1 = some 100 ∧
    (okState (controle_km_mensal stComControle 1 2 202502 210 90) stComControle).controles
      = stComControle.controles ++ [⟨2, 1, 202502, 90, 210⟩] :=
  ⟨((C7_sugestao_km stComControle 1).1 ⟨1, 1, 202501, 100, 150⟩ rfl).1,
   (C7_sugestao_km stAberto 1).2.1 exUsoAberto rfl rfl,
   (C7_sugestao_km stComControle 1).2.2 2 202502 210 90 _ rfl⟩

/-- Component computation: `setVeiculoDisp` only maps the vehicle list. -/
theorem setVeiculoDisp_veiculos (s : FleetState) (vid : Nat) (b : Bool) :
    (setVeiculoDisp s vid b).veiculos
      = s.veiculos.map (fun w => if w.id == vid then { w with disponivel := b } else w) := rfl

theorem setVeiculoDisp_utilizacoes (s : FleetState) (vid : Nat) (b : Bool) :
    (setVeiculoDisp s vid b).utilizacoes = s.utilizacoes := rfl

theorem updateUtilizacao_veiculos (s : FleetState) (id : Nat) (g : Utilizacao → Utilizacao) :
    (updateUtilizacao s id g).veiculos = s.veiculos := rfl

theorem updateUtilizacao_utilizacoes (s : FleetState) (id : Nat) (g : Utilizacao → Utilizacao) :
    (updateUtilizacao s id g).utilizacoes
      = s.utilizacoes.map (fun w => if w.id == id then g w else w) := rfl

/-- Pointwise-equal predicates give the same `any`. -/
theorem list_any_congr {α : Type} (l : List α) (p q : α → Bool)
    (h : ∀ a ∈ l, p a = q a) : l.any p = l.any q := by
  induction l with
  | nil => rfl
  | cons a t ih =>
    have ht : ∀ b ∈ t, p b = q b := fun b hb => h b (List.mem_cons_of_mem a hb)
    rw [List.any_cons, List.any_cons, h a (List.mem_cons_self a t), ih ht]

/-- Membership formulation of `openUtilOn`. -/
theorem openUtilOn_iff (uts : List Utilizacao) (vid : Nat) :
    openUtilOn uts vid = true
      ↔ ∃ u ∈ uts, u.veiculo_id = vid ∧ u.data_devolucao = none := by
  simp [openUtilOn, List.any_eq_true, Option.isNone_iff_eq_none]

/-- Membership formulation of `availabilityInv`. -/
theorem availabilityInv_iff (s : FleetState) :
    availabilityInv s = true
      ↔ ∀ v ∈ s.veiculos, v.disponivel = !openUtilOn s.utilizacoes v.id := by
  simp [availabilityInv, List.all_eq_true]

/-- Creating a utilizacao preserves the availability invariant: the chosen
vehicle gains an open utilizacao and is flagged unavailable; no other vehicle
or utilizacao changes. -/
theorem cadastro_preserva_inv (s : FleetState) (nid uid vid eid dn : Nat) (k : Int)
    (hinv : availabilityInv s = true) :
    availabilityInv (cadastro_utilizacao s nid uid vid eid dn k) = true := by
  rw [availabilityInv_iff] at hinv ⊢
  intro v hv
  have hv2 : v ∈ s.veiculos.map (fun w =>
      if w.id == vid then { w with disponivel := false } else w) := hv
  obtain ⟨w, hw, rfl⟩ := List.mem_map.mp hv2
  show _ = !openUtilOn (s.utilizacoes
      ++ [⟨nid, vid, uid, eid, dn, k, none, none⟩]) _
  by_cases hb : w.id = vid
  · simp only [hb, beq_self_eq_true, if_true]
    have hopen : openUtilOn (s.utilizacoes
        ++ [⟨nid, vid, uid, eid, dn, k, none, none⟩]) vid = true := by
      rw [openUtilOn_iff]
      exact ⟨⟨nid, vid, uid, eid, dn, k, none, none⟩,
        List.mem_append_right _ (List.mem_singleton.mpr rfl), rfl, rfl⟩
    simp [hopen]
  · simp only [beq_iff_eq, hb, if_false]
    have heq : openUtilOn (s.utilizacoes
        ++ [⟨nid, vid, uid, eid, dn, k, none, none⟩]) w.id
        = openUtilOn s.utilizacoes w.id := by
      unfold openUtilOn
      rw [List.any_append]
      have : ([(⟨nid, vid, uid, eid, dn, k, none, none⟩ : Utilizacao)].any
          (fun u => u.veiculo_id == w.id && u.data_devolucao.isNone)) = false := by
        simp [show vid ≠ w.id from fun h => hb h.symm]
      rw [this, Bool.or_false]
    rw [heq]
    exact hinv w hw

/-- Recording the return of the only open utilizacao of its vehicle preserves
the availability invariant: the utilizacao closes and its vehicle is flagged
available. -/
theorem devolucao_preserva_inv (s : FleetState) (id dd : Nat) (km : Int) (u : Utilizacao)
    (hu : getUtilizacao s id = some u)
    (huniq : ∀ w ∈ s.utilizacoes, w.id = id → w = u)
    (honly : ∀ w ∈ s.utilizacoes, w.data_devolucao = none →
        w.veiculo_id = u.veiculo_id → w.id = id)
    (hinv : availabilityInv s = true) :
    availabilityInv (setVeiculoDisp (updateUtilizacao s id (fun w =>
      { w with data_devolucao := some dd, km_devolucao := some km }))
      u.veiculo_id true) = true := by
  rw [availabilityInv_iff] at hinv ⊢
  intro v hv
  rw [setVeiculoDisp_veiculos, updateUtilizacao_veiculos] at hv
  rw [setVeiculoDisp_utilizacoes, updateUtilizacao_utilizacoes]
  obtain ⟨w, hw, rfl⟩ := List.mem_map.mp hv
  by_cases hb : w.id = u.veiculo_id
  · have hcond : (w.id == u.veiculo_id) = true := beq_iff_eq.mpr hb
    rw [if_pos hcond]
    have hopen : openUtilOn (s.utilizacoes.map (fun x =>
        if x.id == id then { x with data_devolucao := some dd, km_devolucao := some km }
        else x)) u.veiculo_id = false := by
      cases hx : openUtilOn (s.utilizacoes.map (fun x =>
          if x.id == id then { x with data_devolucao := some dd, km_devolucao := some km }
          else x)) u.veiculo_id
      · rfl
      · exfalso
        obtain ⟨a', ha', hvid, hopen'⟩ := (openUtilOn_iff _ _).mp hx
        obtain ⟨a, ha, rfl⟩ := List.mem_map.mp ha'
        by_cases h0 : a.id = id
        · simp [h0] at hopen'
        · simp [h0] at hvid hopen'
          exact h0 (honly a ha hopen' hvid)
    show true = !openUtilOn _ w.id
    rw [hb, hopen]
    rfl
  · have hcond : ¬ ((w.id == u.veiculo_id) = true) := fun h => hb (beq_iff_eq.mp h)
    rw [if_neg hcond]
    have heq : openUtilOn (s.utilizacoes.map (fun x =>
        if x.id == id then { x with data_devolucao := some dd, km_devolucao := some km }
        else x)) w.id = openUtilOn s.utilizacoes w.id := by
      unfold openUtilOn
      rw [List.any_map]
      apply list_any_congr
      intro a ha
      by_cases h0 : a.id = id
      · have hau : a = u := huniq a ha h0
        subst hau
        simp [h0, show a.veiculo_id ≠ w.id from fun h => hb h.symm]
      · simp [h0]
    rw [heq]
    exact hinv w hw

/-- Deleting the only open utilizacao of its vehicle preserves the
availability invariant: the row disappears and its vehicle is flagged
available. -/
theorem excluir_preserva_inv (s : FleetState) (id : Nat) (u : Utilizacao)
    (hu : getUtilizacao s id = some u)
    (huniq : ∀ w ∈ s.utilizacoes, w.id = id → w = u)
    (honly : ∀ w ∈ s.utilizacoes, w.data_devolucao = none →
        w.veiculo_id = u.veiculo_id → w.id = id)
    (hinv : availabilityInv s = true) :
    availabilityInv { setVeiculoDisp s u.veiculo_id true with
      utilizacoes := (setVeiculoDisp s u.veiculo_id true).utilizacoes.filter
        (fun w => !(w.id == id)) } = true := by
  rw [availabilityInv_iff] at hinv ⊢
  intro v hv
  have hv2 : v ∈ s.veiculos.map (fun w =>
      if w.id == u.veiculo_id then { w with disponivel := true } else w) := hv
  obtain ⟨w, hw, rfl⟩ := List.mem_map.mp hv2
  show _ = !openUtilOn (s.utilizacoes.filter (fun x => !(x.id == id))) _
  by_cases hb : w.id = u.veiculo_id
  · have hcond : (w.id == u.veiculo_id) = true := beq_iff_eq.mpr hb
    rw [if_pos hcond]
    have hopen : openUtilOn (s.utilizacoes.filter (fun x => !(x.id == id)))
        u.veiculo_id = false := by
      cases hx : openUtilOn (s.utilizacoes.filter (fun x => !(x.id == id))) u.veiculo_id
      · rfl
      · exfalso
        obtain ⟨a, ha, h1, h2⟩ := (openUtilOn_iff _ _).mp hx
        obtain ⟨ha2, hfilt⟩ := List.mem_filter.mp ha
        have haid : a.id = id := honly a ha2 h2 h1
        simp [haid] at hfilt
    show true = !openUtilOn _ w.id
    rw [hb, hopen]
    rfl
  · have hcond : ¬ ((w.id == u.veiculo_id) = true) := fun h => hb (beq_iff_eq.mp h)
    rw [if_neg hcond]
    have heq : openUtilOn (s.utilizacoes.filter (fun x => !(x.id == id))) w.id
        = openUtilOn s.utilizacoes w.id := by
      cases hx : openUtilOn s.utilizacoes w.id
      · cases hy : openUtilOn (s.utilizacoes.filter (fun x => !(x.id == id))) w.id
        · rfl
        · exfalso
          obtain ⟨a, ha, h1, h2⟩ := (openUtilOn_iff _ _).mp hy
          have hmem : openUtilOn s.utilizacoes w.id = true :=
            (openUtilOn_iff _ _).mpr ⟨a, (List.mem_filter.mp ha).1, h1, h2⟩
          rw [hx] at hmem
          exact Bool.false_ne_true hmem
      · obtain ⟨a, ha, h1, h2⟩ := (openUtilOn_iff _ _).mp hx
        have haid : a.id ≠ id := by
          intro h0
          have hau : a = u := huniq a ha h0
          have h1u : u.veiculo_id = w.id := by rw [← hau]; exact h1
          exact hb h1u.symm
        apply (openUtilOn_iff _ _).mpr
        refine ⟨a, List.mem_filter.mpr ⟨ha, ?_⟩, h1, h2⟩
        simp [haid]
    rw [heq]
    exact hinv w hw

/-- The edit function changes neither the row id nor the return date. -/
theorem editaCampos_id (nuid nvid neid nd : Nat) (nk : Int) (w : Utilizacao) :
    (editaCampos nuid nvid neid nd nk w).id = w.id := rfl

theorem editaCampos_veiculo (nuid nvid neid nd : Nat) (nk : Int) (w : Utilizacao) :
    (editaCampos nuid nvid neid nd nk w).veiculo_id = nvid := rfl

theorem editaCampos_devolucao (nuid nvid neid nd : Nat) (nk : Int) (w : Utilizacao) :
    (editaCampos nuid nvid neid nd nk w).data_devolucao = w.data_devolucao := rfl

/-- Re-targeting the only open utilizacao of its old vehicle preserves the
availability invariant: the old vehicle is freed and the new vehicle, now
carrying the open utilizacao, is flagged unavailable. -/
theorem editar_preserva_inv (s : FleetState) (id nuid nvid neid nd : Nat) (nk : Int)
    (u : Utilizacao)
    (hu : getUtilizacao s id = some u)
    (huniq : ∀ w ∈ s.utilizacoes, w.id = id → w = u)
    (honly : ∀ w ∈ s.utilizacoes, w.data_devolucao = none →
        w.veiculo_id = u.veiculo_id → w.id = id)
    (hopn : u.data_devolucao = none)
    (hinv : availabilityInv s = true) :
    availabilityInv (setVeiculoDisp (updateUtilizacao (setVeiculoDisp s u.veiculo_id true) id
      (editaCampos nuid nvid neid nd nk)) nvid false) = true := by
  have humem : u ∈ s.utilizacoes := List.mem_of_find?_eq_some hu
  have huid : (u.id == id) = true := by
    have h2 : s.utilizacoes.find? (fun x => x.id == id) = some u := hu
    have h3 := List.find?_some h2
    exact h3
  have hopen1 : openUtilOn (s.utilizacoes.map (fun x =>
      if x.id == id then editaCampos nuid nvid neid nd nk x else x)) nvid = true := by
    rw [openUtilOn_iff]
    refine ⟨editaCampos nuid nvid neid nd nk u, ?_, editaCampos_veiculo _ _ _ _ _ _, ?_⟩
    · exact List.mem_map.mpr ⟨u, humem, by rw [if_pos huid]⟩
    · rw [editaCampos_devolucao]; exact hopn
  rw [availabilityInv_iff] at hinv ⊢
  intro v hv
  rw [setVeiculoDisp_veiculos, updateUtilizacao_veiculos, setVeiculoDisp_veiculos,
    List.map_map] at hv
  rw [setVeiculoDisp_utilizacoes, updateUtilizacao_utilizacoes, setVeiculoDisp_utilizacoes]
  obtain ⟨w, hw, rfl⟩ := List.mem_map.mp hv
  simp only [Function.comp_apply]
  by_cases hbo : w.id = u.veiculo_id
  · rw [if_pos (beq_iff_eq.mpr hbo)]
    by_cases hbn : w.id = nvid
    · have hcond2 : ((({ w with disponivel := true } : Veiculo)).id == nvid) = true :=
        beq_iff_eq.mpr hbn
      rw [if_pos hcond2]
      show false = !openUtilOn _ w.id
      rw [hbn, hopen1]
      rfl
    · have hcond2 : ¬ (((({ w with disponivel := true } : Veiculo)).id == nvid) = true) :=
        fun h => hbn (beq_iff_eq.mp h)
      rw [if_neg hcond2]
      have hopen2 : openUtilOn (s.utilizacoes.map (fun x =>
          if x.id == id then editaCampos nuid nvid neid nd nk x else x)) w.id = false := by
        cases hx : openUtilOn (s.utilizacoes.map (fun x =>
            if x.id == id then editaCampos nuid nvid neid nd nk x else x)) w.id
        · rfl
        · exfalso
          obtain ⟨a', ha', h1, h2⟩ := (openUtilOn_iff _ _).mp hx
          obtain ⟨a, ha, rfl⟩ := List.mem_map.mp ha'
          by_cases h0 : a.id = id
          · rw [if_pos (beq_iff_eq.mpr h0), editaCampos_veiculo] at h1
            exact hbn h1.symm
          · rw [if_neg (fun h => h0 (beq_iff_eq.mp h))] at h1 h2
            have hvv : a.veiculo_id = u.veiculo_id := by rw [h1, hbo]
            exact h0 (honly a ha h2 hvv)
      show true = !openUtilOn _ w.id
      rw [hopen2]
      rfl
  · rw [if_neg (fun h => hbo (beq_iff_eq.mp h))]
    by_cases hbn : w.id = nvid
    · rw [if_pos (beq_iff_eq.mpr hbn)]
      show false = !openUtilOn _ w.id
      rw [hbn, hopen1]
      rfl
    · rw [if_neg (fun h => hbn (beq_iff_eq.mp h))]
      have heq : openUtilOn (s.utilizacoes.map (fun x =>
          if x.id == id then editaCampos nuid nvid neid nd nk x else x)) w.id
          = openUtilOn s.utilizacoes w.id := by
        unfold openUtilOn
        rw [List.any_map]
        apply list_any_congr
        intro a ha
        by_cases h0 : a.id = id
        · have hau : a = u := huniq a ha h0
          subst hau
          simp only [Function.comp_apply]
          rw [if_pos (beq_iff_eq.mpr h0)]
          have e1 : (nvid == w.id) = false :=
            beq_eq_false_iff_ne.mpr (fun h => hbn h.symm)
          have e2 : (a.veiculo_id == w.id) = false :=
            beq_eq_false_iff_ne.mpr (fun h => hbo h.symm)
          rw [editaCampos_veiculo, editaCampos_devolucao, e1, e2]
        · simp [h0]
      rw [heq]
      exact hinv w hw

/-- Claim C1 (amended): a vehicle's availability flag is false iff an open
utilizacao references it, and the mutating routes preserve this invariant in
the situations the application itself produces — creating a utilizacao
preserves it unconditionally; returning, deleting or re-targeting preserves
it when the target row is the unique row with its id and the only open
utilizacao of its (old) vehicle, re-targeting additionally requiring the row
to be open.  (Deleting or re-targeting an already-returned utilizacao, or one
sharing a vehicle with another open utilizacao, can break the invariant: see
the counterexample.) -/
theorem C1_disponibilidade :
    (∀ (s : FleetState) (nid uid vid eid dn : Nat) (k : Int),
        availabilityInv s = true →
        availabilityInv (cadastro_utilizacao s nid uid vid eid dn k) = true) ∧
    (∀ (s : FleetState) (id dd today : Nat) (km : Int) (u : Utilizacao),
        getUtilizacao s id = some u →
        (∀ w ∈ s.utilizacoes, w.id = id → w = u) →
        (∀ w ∈ s.utilizacoes, w.data_devolucao = none →
            w.veiculo_id = u.veiculo_id → w.id = id) →
        availabilityInv s = true →
        resultInvariant (devolucao s id dd km today) = true) ∧
    (∀ (s : FleetState) (id : Nat) (u : Utilizacao),
        getUtilizacao s id = some u →
        (∀ w ∈ s.utilizacoes, w.id = id → w = u) →
        (∀ w ∈ s.utilizacoes, w.data_devolucao = none →
            w.veiculo_id = u.veiculo_id → w.id = id) →
        availabilityInv s = true →
        resultInvariant (excluir_utilizacao s id) = true) ∧
    (∀ (s : FleetState) (id nuid nvid neid nd : Nat) (nk : Int) (u : Utilizacao),
        getUtilizacao s id = some u →
        (∀ w ∈ s.utilizacoes, w.id = id → w = u) →
        (∀ w ∈ s.utilizacoes, w.data_devolucao = none →
            w.veiculo_id = u.veiculo_id → w.id = id) →
        u.data_devolucao = none →
        availabilityInv s = true →
        resultInvariant (editar_utilizacao s id nuid nvid neid nd nk) = true) := by
  refine ⟨?_, ?_, ?_, ?_⟩
  · intro s nid uid vid eid dn k hinv
    exact cadastro_preserva_inv s nid uid vid eid dn k hinv
  · intro s id dd today km u hu huniq honly hinv
    cases hk : kmMinimoDe s id with
    | none =>
      have hr : devolucao s id dd km today = .crash := by
        unfold devolucao; rw [hk]
      rw [hr]; rfl
    | some km0 =>
      by_cases h1 : km < km0
      · have hr : devolucao s id dd km today
            = .rejected "O KM de devolução não pode ser menor que o último KM registrado." := by
          unfold devolucao; rw [hk]; simp [h1]
        rw [hr]; rfl
      · by_cases h2 : today < dd
        · have hr : devolucao s id dd km today
              = .rejected "A data de devolução não pode ser uma data futura." := by
            unfold devolucao; rw [hk]; simp [h1, h2]
          rw [hr]; rfl
        · have hr : devolucao s id dd km today
              = .ok (setVeiculoDisp (updateUtilizacao s id (fun w =>
                  { w with data_devolucao := some dd, km_devolucao := some km }))
                  u.veiculo_id true) := by
            unfold devolucao; rw [hk]
            simp only [h1, h2, if_false]
            rw [hu]
          rw [hr]
          exact devolucao_preserva_inv s id dd km u hu huniq honly hinv
  · intro s id u hu huniq honly hinv
    have hr : excluir_utilizacao s id
        = .ok { setVeiculoDisp s u.veiculo_id true with
            utilizacoes := (setVeiculoDisp s u.veiculo_id true).utilizacoes.filter
              (fun w => !(w.id == id)) } := by
      unfold excluir_utilizacao; rw [hu]
    rw [hr]
    exact excluir_preserva_inv s id u hu huniq honly hinv
  · intro s id nuid nvid neid nd nk u hu huniq honly hopn hinv
    have hr : editar_utilizacao s id nuid nvid neid nd nk
        = .ok (setVeiculoDisp (updateUtilizacao (setVeiculoDisp s u.veiculo_id true) id
            (editaCampos nuid nvid neid nd nk)) nvid false) := by
      unfold editar_utilizacao; rw [hu]
    rw [hr]
    exact editar_preserva_inv s id nuid nvid neid nd nk u hu huniq honly hopn hinv

/-- Witness for C1: on a state with one open utilizacao (vehicle 1 busy,
vehicle 2 free) every guarded operation commits a state still satisfying the
availability invariant. -/
theorem C1_witness :
    availabilityInv (cadastro_utilizacao stAberto 2 1 2 1 1 200) = true ∧
    resultInvariant (devolucao stAberto 1 5 200 10) = true ∧
    resultInvariant (excluir_utilizacao stAberto 1) = true ∧
    resultInvariant (editar_utilizacao stAberto 1 1 2 1 1 100) = true :=
  ⟨C1_disponibilidade.1 stAberto 2 1 2 1 1 200 (by decide),
   C1_disponibilidade.2.1 stAberto 1 5 10 200 exUsoAberto rfl (by decide) (by decide)
     (by decide),
   C1_disponibilidade.2.2.1 stAberto 1 exUsoAberto rfl (by decide) (by decide) (by decide),
   C1_disponibilidade.2.2.2 stAberto 1 1 2 1 1 100 exUsoAberto rfl (by decide) (by decide)
     rfl (by decide)⟩

/-- A triple matched by no stored fine filters to the empty list. -/
theorem tripleExists_false_filter (l : List Multa) (p : Option String) (d : Option Nat)
    (i : Option String) :
    tripleExists l p d i = false → l.filter (fun m => sameTriple m p d i) = [] := by
  unfold tripleExists
  induction l with
  | nil => intro _; rfl
  | cons m t ih =>
    intro h
    rw [List.any_cons, Bool.or_eq_false_iff] at h
    simp [List.filter_cons, h.1, ih h.2]

/-- Claim C6: a spreadsheet row whose (plate, infraction date, infraction
text) triple already matches a stored fine is skipped unchanged; importing
two resolvable rows carrying the same fresh triple inserts exactly one fine
with that triple — the second row sees the first row's insert and is skipped. -/
theorem C6_importacao_dedup :
    (∀ (s : FleetState) (nid : Nat) (r : LinhaPlanilha),
        tripleExists s.multas r.placa r.data_infracao r.infracao = true →
        processLinha (s, nid) r = (s, nid)) ∧
    (∀ (s : FleetState) (nid : Nat) (r1 r2 : LinhaPlanilha) (p : String) (d : Nat)
        (i : String),
        r1.placa = some p → r1.data_infracao = some d → r1.infracao = some i →
        r2.placa = some p → r2.data_infracao = some d → r2.infracao = some i →
        tripleExists s.multas (some p) (some d) (some i) = false →
        linhaResolve s r1 = true →
        countTriple (importar_multas s nid [r1, r2]).multas (some p) (some d) (some i)
          = 1) := by
  constructor
  · intro s nid r h
    simp [processLinha, h]
  · intro s nid r1 r2 p d i h1p h1d h1i h2p h2d h2i hfresh hres
    have hfresh1 : tripleExists s.multas r1.placa r1.data_infracao r1.infracao = false := by
      rw [h1p, h1d, h1i]; exact hfresh
    have hstep1 : processLinha (s, nid) r1
        = ({ s with multas := s.multas ++ [linhaToMulta s nid r1] }, nid + 1) := by
      simp [processLinha, hfresh1, hres]
    have hm1 : sameTriple (linhaToMulta s nid r1) (some p) (some d) (some i) = true := by
      unfold sameTriple linhaToMulta
      simp [h1p, h1d, h1i]
    have hskip : tripleExists (s.multas ++ [linhaToMulta s nid r1]) r2.placa
        r2.data_infracao r2.infracao = true := by
      rw [h2p, h2d, h2i]
      unfold tripleExists
      rw [List.any_append]
      have h2 : [linhaToMulta s nid r1].any
          (fun m => sameTriple m (some p) (some d) (some i)) = true := by
        simp [List.any_cons, List.any_nil, hm1]
      rw [h2, Bool.or_true]
    have hstep2 : processLinha
        ({ s with multas := s.multas ++ [linhaToMulta s nid r1] }, nid + 1) r2
        = ({ s with multas := s.multas ++ [linhaToMulta s nid r1] }, nid + 1) := by
      simp [processLinha, hskip]
    have himport : (importar_multas s nid [r1, r2]).multas
        = s.multas ++ [linhaToMulta s nid r1] := by
      unfold importar_multas
      rw [List.foldl_cons, hstep1, List.foldl_cons, hstep2, List.foldl_nil]
    rw [himport]
    unfold countTriple
    rw [List.filter_append,
      tripleExists_false_filter s.multas (some p) (some d) (some i) hfresh]
    simp [List.filter_cons, hm1]

/-- Witness for C6: a row whose triple matches the stored fine is skipped,
and importing the same fresh triple twice inserts exactly one fine. -/
theorem C6_witness :
    processLinha (stComMulta, 5) linhaAna = (stComMulta, 5) ∧
    countTriple (importar_multas stImport 1 [linhaAna, linhaAnaDup]).multas
      (some "ABC1234") (some 5) (some "Avanço de sinal") = 1 :=
  ⟨C6_importacao_dedup.1 stComMulta 5 linhaAna (by decide),
   C6_importacao_dedup.2 stImport 1 linhaAna linhaAnaDup "ABC1234" 5 "Avanço de sinal"
     rfl rfl rfl rfl rfl rfl rfl (by decide)⟩

/-- `getLastD` picks an element of the extended list. -/
theorem getLastD_mem_cons_ctrl (xs : List ControleKm) (x : ControleKm) :
    xs.getLastD x ∈ x :: xs := by
  induction xs generalizing x with
  | nil => rw [List.getLastD_nil]; exact .head _
  | cons y ys ih =>
    rw [List.getLastD_cons]
    rcases List.mem_cons.mp (ih y) with h | h
    · rw [h]; exact .tail _ (.head _)
    · exact .tail _ (.tail _ h)

/-- One unfolding step of `earliestByMesAno`. -/
theorem earliestByMesAno_cons (a : ControleKm) (t : List ControleKm) :
    earliestByMesAno (a :: t)
      = match earliestByMesAno t with
        | none => some a
        | some b => if a.mes_ano ≤ b.mes_ano then some a else some b := rfl

/-- On a label-sorted list the label-earliest checkpoint is the head. -/
theorem earliestByMesAno_sorted (a : ControleKm) (t : List ControleKm)
    (hs : (a :: t).Pairwise (fun x y => x.mes_ano < y.mes_ano)) :
    earliestByMesAno (a :: t) = some a := by
  induction t generalizing a with
  | nil => rfl
  | cons x xs ih =>
    obtain ⟨ha, ht⟩ := List.pairwise_cons.mp hs
    rw [earliestByMesAno_cons, ih x ht]
    have hax : a.mes_ano ≤ x.mes_ano := le_of_lt (ha x (.head _))
    show (if a.mes_ano ≤ x.mes_ano then some a else some x) = some a
    rw [if_pos hax]

/-- On a label-sorted list the label-latest checkpoint is the last element. -/
theorem latestByMesAno_sorted (a : ControleKm) (t : List ControleKm)
    (hs : (a :: t).Pairwise (fun x y => x.mes_ano < y.mes_ano)) :
    latestByMesAno (a :: t) = some (t.getLastD a) := by
  induction t generalizing a with
  | nil => rfl
  | cons x xs ih =>
    obtain ⟨ha, ht⟩ := List.pairwise_cons.mp hs
    rw [latestByMesAno_cons, ih x ht]
    have hlt : a.mes_ano < (xs.getLastD x).mes_ano := ha _ (getLastD_mem_cons_ctrl xs x)
    show (if (xs.getLastD x).mes_ano ≤ a.mes_ano then some a else some (xs.getLastD x))
        = some ((x :: xs).getLastD a)
    rw [if_neg (not_le.mpr hlt), List.getLastD_cons]

/-- Telescoping: under start-equals-previous-end continuity, the per-month
differences sum to last end minus first start. -/
theorem somaKm_chain (a : ControleKm) (t : List ControleKm)
    (h : List.Chain' (fun x y => y.km_inicial_mes = x.km_final_mes) (a :: t)) :
    ((a :: t).map (fun c => c.km_final_mes - c.km_inicial_mes)).sum
      = (t.getLastD a).km_final_mes - a.km_inicial_mes := by
  induction t generalizing a with
  | nil => simp
  | cons x xs ih =>
    have hrel : x.km_inicial_mes = a.km_final_mes := (List.chain'_cons.mp h).1
    have hx := ih x (List.chain'_cons.mp h).2
    simp only [List.map_cons, List.sum_cons] at hx ⊢
    rw [List.getLastD_cons]
    omega

/-- Claim C8: when a single driver's checkpoints fall in the filtered range
and monthly continuity holds (each start equals the previous end, checkpoints
stored in ascending label order), that driver's summed figure equals the
report's "total mileage in period" (last end minus first start); with
multiple drivers or broken continuity the two computations are unrelated by
construction. -/
theorem C8_relatorio_km (s : FleetState) (f : KmFiltro) (nome : String)
    (hone : ∀ c ∈ inRangeControles s f, driverNameOf s c = some nome)
    (hsorted : (inRangeControles s f).Pairwise (fun x y => x.mes_ano < y.mes_ano))
    (hchain : (inRangeControles s f).Chain'
      (fun x y => y.km_inicial_mes = x.km_final_mes)) :
    kmPorMotorista s f nome = kmTotalPeriodo s f := by
  unfold kmPorMotorista kmTotalPeriodo
  have hfilter : (inRangeControles s f).filter
      (fun c => driverNameOf s c == some nome) = inRangeControles s f := by
    rw [List.filter_eq_self]
    intro c hc
    exact beq_iff_eq.mpr (hone c hc)
  rw [hfilter]
  cases hl : inRangeControles s f with
  | nil => rfl
  | cons a t =>
    rw [hl] at hsorted hchain
    rw [earliestByMesAno_sorted a t hsorted, latestByMesAno_sorted a t hsorted]
    exact somaKm_chain a t hchain

/-- Witness for C8: two continuous checkpoints of a single driver over
January–February: the per-driver sum and the period total both equal 250. -/
theorem C8_witness :
    kmPorMotorista stRelatorio filtroRelatorio "Ana"
      = kmTotalPeriodo stRelatorio filtroRelatorio := by
  have hl : inRangeControles stRelatorio filtroRelatorio
      = [⟨1, 1, 202501, 100, 200⟩, ⟨2, 1, 202502, 200, 350⟩] := by rfl
  apply C8_relatorio_km stRelatorio filtroRelatorio "Ana"
  · decide
  · rw [hl]
    simp [List.pairwise_cons]
  · rw [hl]
    simp [List.chain'_cons]
